import Mathlib

/-!
Verification of the session-state and request-admission pipeline of
`src/agent.py` (workout-coach chat agent).  The Python functions
`check_rate_limit`, `is_valid_input`, `is_greeting`,
`prepare_chat_history`, `extract_user_context`, `update_usage_stats`
and `chat` are shallowly embedded as executable Lean functions; the
four persisted JSON stores (rate limits, usage stats, profiles,
conversation memory) are modelled as total maps from session ids,
and the external LangChain reasoning step is a parameter (an oracle
from the enhanced input and formatted history to a result).
Wall-clock time (`time.time()`) is a rational parameter; ISO
timestamps (`datetime.now().isoformat()`) are an opaque string
parameter.
-/

namespace WorkoutAgent

/-! ## String helpers

Python string primitives (`in`, `strip`, `lower`, `len`) modelled on
the character list underlying `String`, so everything reduces in the
kernel. -/

/-- Is the first character list a prefix of the second. -/
def listPrefixOf : List Char → List Char → Bool
  | [], _ => true
  | _ :: _, [] => false
  | a :: as, b :: bs => a == b && listPrefixOf as bs

/-- Does `needle` occur contiguously inside the second list (Python `in`). -/
def listInfixOf (needle : List Char) : List Char → Bool
  | [] => needle.isEmpty
  | b :: bs => listPrefixOf needle (b :: bs) || listInfixOf needle bs

/-- Python `needle in haystack` on strings. -/
def strContains (haystack needle : String) : Bool :=
  listInfixOf needle.data haystack.data

/-- Python `str.strip()`: drop whitespace from both ends. -/
def stripChars (s : String) : String :=
  String.mk (((s.data.dropWhile fun c => c.isWhitespace).reverse.dropWhile
    fun c => c.isWhitespace).reverse)

/-- Python `str.lower()` (keyword alphabet is ASCII). -/
def lowerStr (s : String) : String :=
  String.mk (s.data.map Char.toLower)

/-- Python `len(s)` (character count). -/
def strLen (s : String) : Nat := s.data.length

/-- Python `l[-n:]`.  For `n ≥ 1` this is the most recent `n`
elements; for `n = 0` Python's `l[-0:]` is `l[0:]`, the whole list. -/
def lastN {α : Type} (n : Nat) (l : List α) : List α :=
  if n = 0 then l else l.drop (l.length - n)

/-! ## Conversation turns and typed messages -/

/-- One stored conversation turn `(role, text)` with role `"human"` or
`"assistant"`, as the Python tuples kept in `user_memory`. -/
abbrev Turn := String × String

/-- A typed prompt message (`HumanMessage` / `AIMessage`). -/
inductive Msg
  | human (content : String)
  | ai (content : String)
deriving DecidableEq

/-- `prepare_chat_history`: per-turn typed mapping. -/
def toMsg (t : Turn) : Msg :=
  if t.1 == "human" then .human t.2 else .ai t.2

/-- The synthetic summary text for `n` omitted turns (f-string at
line 394 of `src/agent.py`). -/
def summaryString (n : Nat) : String :=
  "[Earlier in conversation: " ++ toString n ++
    " messages exchanged about workout planning]"

/-- `prepare_chat_history(chat_history, max_messages)` from
`src/agent.py` lines 374-404. -/
def prepare_chat_history (chatHistory : List Turn) (maxMessages : Nat) : List Msg :=
  if chatHistory.length ≤ maxMessages then chatHistory.map toMsg
  else
    .ai (summaryString (chatHistory.length - maxMessages)) ::
      (lastN maxMessages chatHistory).map toMsg

/-! ## Rate limiter -/

/-- Result of `check_rate_limit`: the returned pair plus the session's
new timestamp sequence (the in-place mutation of `request_times`). -/
structure RateResult where
  allowed : Bool
  message : String
  times : List ℚ
deriving DecidableEq

/-- The rejection message (f-string at line 264 of `src/agent.py`). -/
def rateLimitMessage (wait : ℤ) : String :=
  "Rate limit exceeded. Please wait " ++ toString wait ++
    " seconds before trying again."

/-- `int(window - (now - request_times[session_id][0]))`.  In the
rejecting branch the argument is strictly positive (the oldest
retained timestamp satisfies `now - t < window`), so Python's
truncation toward zero agrees with the floor. -/
def rejectWait (pruned : List ℚ) (now window : ℚ) : ℤ :=
  ⌊window - (now - pruned.headI)⌋

/-- `check_rate_limit(session_id, max_requests, window)` from
`src/agent.py` lines 254-268, acting on the session's timestamp list. -/
def check_rate_limit (rt : List ℚ) (now : ℚ) (maxRequests : Nat) (window : ℚ) :
    RateResult :=
  let pruned := rt.filter fun t => decide (now - t < window)
  if maxRequests ≤ pruned.length then
    { allowed := false
      message := rateLimitMessage (rejectWait pruned now window)
      times := pruned }
  else
    { allowed := true, message := "", times := pruned ++ [now] }

/-- The session's timestamp sequence after calling `check_rate_limit`
(with the defaults 20/60) once at each given instant in turn. -/
def rateState : List ℚ → List ℚ → List ℚ
  | [], rt => rt
  | t :: ts, rt => rateState ts (check_rate_limit rt t 20 60).times

/-! ## Input validation and greetings -/

/-- `is_valid_input(text)` from `src/agent.py` lines 350-358. -/
def is_valid_input (text : String) : Bool :=
  if text.data.isEmpty || strLen (stripChars text) < 2 then false
  else
    (text.data.any fun c => c.isAlpha) && decide (2 ≤ strLen (stripChars text))

/-- The fixed greeting set (`src/agent.py` lines 363-366). -/
def greetings : List String :=
  ["hi", "hello", "hey", "hii", "hai", "yo",
   "good morning", "good afternoon", "good evening"]

/-- `is_greeting(text)`: exact membership of the trimmed, lower-cased
text in the fixed set. -/
def is_greeting (text : String) : Bool :=
  greetings.contains (lowerStr (stripChars text))

/-! ## User profiles and keyword extraction -/

/-- The per-session profile record, with exactly the fields created by
the dict literal at `src/agent.py` lines 154-161. -/
structure Profile where
  goals : List String
  experience_level : String
  equipment : List String
  limitations : List String
  preferences : List String
  last_updated : String
deriving DecidableEq

/-- A JSON value occurring in a serialized profile record. -/
inductive JValue
  | str (s : String)
  | arr (xs : List String)
deriving DecidableEq

/-- The serialized record shape of one profile entry: key/value pairs
in the creation order of the dict literal (lines 154-161). -/
def Profile.toFields (p : Profile) : List (String × JValue) :=
  [("goals", .arr p.goals), ("experience_level", .str p.experience_level),
   ("equipment", .arr p.equipment), ("limitations", .arr p.limitations),
   ("preferences", .arr p.preferences), ("last_updated", .str p.last_updated)]

/-- The fresh profile created on a session's first extraction call. -/
def defaultProfile (nowIso : String) : Profile :=
  { goals := [], experience_level := "unknown", equipment := [],
    limitations := [], preferences := [], last_updated := nowIso }

/-- `recent_messages` (line 166): last 10 turns, or all when ≤ 10. -/
def recentMessages (chatHistory : List Turn) : List Turn :=
  if 10 < chatHistory.length then lastN 10 chatHistory else chatHistory

/-- The scan buffer (line 167): human-authored text of the recent
turns joined by spaces, lower-cased. -/
def scanBuffer (chatHistory : List Turn) : String :=
  lowerStr (String.intercalate " "
    (((recentMessages chatHistory).filter fun t => t.1 == "human").map fun t => t.2))

/-- `goal_keywords` (lines 170-177), in dict insertion order. -/
def goalKeywords : List (String × String) :=
  [("muscle", "muscle gain"), ("strength", "strength"),
   ("lose weight", "fat loss"), ("fat loss", "fat loss"),
   ("endurance", "endurance"), ("cardio", "cardio")]

/-- Goals pass (lines 178-180): append each matched canonical goal not
already present. -/
def extractGoals (buffer : String) (goals : List String) : List String :=
  goalKeywords.foldl
    (fun gs kv =>
      if strContains buffer kv.1 && !(gs.contains kv.2) then gs ++ [kv.2] else gs)
    goals

/-- `experience_keywords` (lines 183-189), in dict insertion order. -/
def experienceKeywords : List (String × String) :=
  [("beginner", "beginner"), ("intermediate", "intermediate"),
   ("advanced", "advanced"), ("new to", "beginner"),
   ("just started", "beginner")]

/-- Experience pass (lines 190-193): the first table entry whose
keyword occurs in the buffer overwrites the level, then `break`. -/
def extractExperience (buffer cur : String) : String :=
  match experienceKeywords.find? fun kv => strContains buffer kv.1 with
  | some kv => kv.2
  | none => cur

/-- `equipment_keywords` (lines 196-197). -/
def equipmentKeywords : List String :=
  ["dumbbells", "barbell", "kettlebell", "resistance bands",
   "gym", "home", "bodyweight", "machines"]

/-- Equipment pass (lines 198-200). -/
def extractEquipment (buffer : String) (equipment : List String) : List String :=
  equipmentKeywords.foldl
    (fun es e =>
      if strContains buffer e && !(es.contains e) then es ++ [e] else es)
    equipment

/-- `limitation_keywords` (lines 203-204). -/
def limitationKeywords : List String :=
  ["injury", "pain", "hurt", "sore", "bad knee",
   "back pain", "shoulder", "can\x27t do"]

/-- Inner turn scan for one limitation keyword (lines 208-212): append
the first human message containing the keyword and stop, unless that
message is already recorded, in which case keep scanning. -/
def scanLimitation (kw : String) : List Turn → List String → List String
  | [], lims => lims
  | t :: rest, lims =>
    if t.1 == "human" && strContains (lowerStr t.2) kw then
      if !(lims.contains t.2) then lims ++ [t.2]
      else scanLimitation kw rest lims
    else scanLimitation kw rest lims

/-- Limitations pass (lines 205-212). -/
def extractLimitations (buffer : String) (recent : List Turn)
    (lims : List String) : List String :=
  limitationKeywords.foldl
    (fun ls kw => if strContains buffer kw then scanLimitation kw recent ls else ls)
    lims

/-- `extract_user_context(session_id, chat_history)` from
`src/agent.py` lines 146-218, acting on the session's stored profile
(`none` = session not yet in the profile store). -/
def extract_user_context (storedProfile : Option Profile)
    (chatHistory : List Turn) (nowIso : String) : Profile :=
  let profile := storedProfile.getD (defaultProfile nowIso)
  let recent := recentMessages chatHistory
  let buffer := scanBuffer chatHistory
  { goals := extractGoals buffer profile.goals
    experience_level := extractExperience buffer profile.experience_level
    equipment := extractEquipment buffer profile.equipment
    limitations := extractLimitations buffer recent profile.limitations
    preferences := profile.preferences
    last_updated := nowIso }

/-! ## Usage statistics -/

/-- One per-session usage record (`usage_stats.json`). -/
structure Usage where
  total_requests : Nat
  first_seen : String
  last_seen : String
deriving DecidableEq

/-- `update_usage_stats(session_id)` from `src/agent.py` lines
128-143: returns the updated store and the new request count. -/
def update_usage_stats (sid nowIso : String) (stats : String → Option Usage) :
    (String → Option Usage) × Nat :=
  let r0 := (stats sid).getD
    { total_requests := 0, first_seen := nowIso, last_seen := nowIso }
  let r1 : Usage :=
    { total_requests := r0.total_requests + 1, first_seen := r0.first_seen,
      last_seen := nowIso }
  (fun s => if s = sid then some r1 else stats s, r1.total_requests)

/-! ## The four persisted stores and the chat orchestrator -/

/-- The process-wide mutable state: the four persisted stores, each a
total map from session id (`request_times`, `usage_stats.json`,
`user_profiles.json`, `user_memory.json`; an absent memory key reads
as `[]` via `user_memory.get(session_id, [])`). -/
structure Stores where
  rateTimes : String → List ℚ
  usage : String → Option Usage
  profiles : String → Option Profile
  memory : String → List Turn

/-- Outcome of one timeout-bounded reasoning-step invocation:
`success output` carries `response.get("output", ...)`'s lookup
(`none` = the `"output"` key is absent), `timedOut` is the
`TimeoutError` path, `failed` any other exception. -/
inductive InvokeResult
  | success (output : Option String)
  | timedOut
  | failed
deriving DecidableEq

/-- What `chat` produces: the returned text and the stores after the
call's side effects. -/
structure ChatResult where
  text : String
  stores : Stores

/-- Default used when the reasoning response lacks an `"output"` key
(line 523). -/
def fallbackOutput : String :=
  "I\x27m not sure how to respond to that. Could you rephrase?"

/-- Fixed reply for invalid input (line 492). -/
def invalidReply : String :=
  "Could you please provide a more detailed request?"

/-- Fixed reply for greetings (line 496). -/
def greetingReply : String :=
  "Hello! I\x27m your AI personal trainer. How can I help you with your workout today? I can suggest exercises, create workout plans, adjust training volume, and track your progress!"

/-- Fixed reply on timeout (line 538). -/
def timeoutReply : String :=
  "I\x27m taking too long to process that. Could you try asking a simpler question or breaking it into parts?"

/-- Fixed reply on any other reasoning-step failure (line 543). -/
def errorReply : String :=
  "I\x27m having trouble processing that request. Could you rephrase it or try asking something else?"

/-- `chat(user_input, agent_executor, session_id, timeout_seconds)`
from `src/agent.py` lines 470-543.  `invoke` is the external
reasoning step, applied to the enhanced input and the formatted
bounded history. -/
def chat (userInput sid : String) (now : ℚ) (nowIso : String)
    (invoke : String → List Msg → InvokeResult) (st : Stores) : ChatResult :=
  let rl := check_rate_limit (st.rateTimes sid) now 20 60
  let st1 : Stores :=
    { st with rateTimes := fun s => if s = sid then rl.times else st.rateTimes s }
  if rl.allowed = false then { text := rl.message, stores := st1 }
  else if is_valid_input userInput = false then
    { text := invalidReply, stores := st1 }
  else if is_greeting userInput then { text := greetingReply, stores := st1 }
  else
    let usageNew := update_usage_stats sid nowIso st1.usage
    let st2 : Stores := { st1 with usage := usageNew.1 }
    let chatHistory := st2.memory sid
    let profile := extract_user_context (st2.profiles sid) chatHistory nowIso
    let st3 : Stores :=
      { st2 with profiles := fun s => if s = sid then some profile else st2.profiles s }
    let enhancedInput :=
      if profile.limitations.isEmpty then userInput
      else
        userInput ++ "\n[User has mentioned: " ++
          String.intercalate ", " (profile.limitations.take 2) ++ "]"
    let formattedHistory := prepare_chat_history chatHistory 20
    match invoke enhancedInput formattedHistory with
    | .success output =>
      let finalText := output.getD fallbackOutput
      let newHistory :=
        lastN 50 (chatHistory ++ [("human", userInput), ("assistant", finalText)])
      let st4 : Stores :=
        { st3 with memory := fun s => if s = sid then newHistory else st3.memory s }
      { text := finalText, stores := st4 }
    | .timedOut => { text := timeoutReply, stores := st3 }
    | .failed => { text := errorReply, stores := st3 }

/-- A process state in which nothing has been persisted yet. -/
def emptyStores : Stores :=
  { rateTimes := fun _ => [], usage := fun _ => none,
    profiles := fun _ => none, memory := fun _ => [] }

/-! ## Helper lemmas -/

/-- `find?` returns the entry at the first index whose test holds. -/
theorem list_find_first {α : Type} (p : α → Bool) (d : α) :
    ∀ (l : List α) (i : Nat), i < l.length → p (l.getD i d) = true →
      (∀ k, k < i → p (l.getD k d) = false) → l.find? p = some (l.getD i d) := by
  intro l
  induction l with
  | nil => intro i hi; simp at hi
  | cons a t ih =>
    intro i hi hp hmin
    cases i with
    | zero =>
      simp only [List.getD_cons_zero] at hp ⊢
      simp [List.find?, hp]
    | succ j =>
      have ha : p a = false := by
        have h0 := hmin 0 (Nat.succ_pos j)
        simpa using h0
      have ht : t.find? p = some (t.getD j d) := by
        apply ih j (Nat.lt_of_succ_lt_succ hi)
        · simpa using hp
        · intro k hk
          have hk1 := hmin (k + 1) (Nat.succ_lt_succ hk)
          simpa using hk1
      simp [List.find?, ha, ht]

/-- On an admitted call, `check_rate_limit` appends `now` to the pruned
sequence and reports no message. -/
theorem check_rate_limit_allowed (rt : List ℚ) (now : ℚ) (m : Nat) (w : ℚ)
    (h : (check_rate_limit rt now m w).allowed = true) :
    (check_rate_limit rt now m w).times =
      (rt.filter fun t => decide (now - t < w)) ++ [now] ∧
    (check_rate_limit rt now m w).message = "" := by
  by_cases hc : m ≤ (rt.filter fun t => decide (now - t < w)).length
  · simp [check_rate_limit, hc] at h
  · simp [check_rate_limit, hc]

/-! ## Claims -/

/-- Claim C3 counterexample: with bound `max_messages = 0` and a
one-turn history, the claim predicts exactly one summary entry
followed by the 0 most recent turns, but the code's slice
`chat_history[-0:]` is the whole list, so it returns the summary
followed by all turns: 2 entries with a nonempty tail. -/
theorem c3_zero_bound_counterexample :
    0 < ([(("human", "hi there") : Turn)] : List Turn).length ∧
    (prepare_chat_history [(("human", "hi there") : Turn)] 0).length ≠ 0 + 1 ∧
    (prepare_chat_history [(("human", "hi there") : Turn)] 0).tail =
      [Msg.human "hi there"] := by
  decide

/-- Claim C3, amended (corrected): for every bound `max_messages ≥ 1`,
`prepare_chat_history` maps all turns in order when the history fits
in `max_messages`, and otherwise returns one synthetic model-authored
summary naming the number of omitted earlier turns followed by the
typed mapping of the most recent `max_messages` turns; at
`max_messages = 0` with a nonempty history the slice
`chat_history[-0:]` keeps the whole list, so the summary is followed
by the typed mapping of all turns; for 25 turns and
`max_messages = 20` it returns 21 entries whose summary states 5
omitted. -/
theorem c3_prepare_history (chatHistory : List Turn) (maxMessages : Nat) :
    (chatHistory.length ≤ maxMessages →
      prepare_chat_history chatHistory maxMessages = chatHistory.map toMsg) ∧
    (0 < maxMessages → maxMessages < chatHistory.length →
      (prepare_chat_history chatHistory maxMessages).length = maxMessages + 1 ∧
      (prepare_chat_history chatHistory maxMessages).head? =
        some (.ai (summaryString (chatHistory.length - maxMessages))) ∧
      (prepare_chat_history chatHistory maxMessages).tail =
        (lastN maxMessages chatHistory).map toMsg) ∧
    (maxMessages = 0 → 0 < chatHistory.length →
      prepare_chat_history chatHistory maxMessages =
        .ai (summaryString chatHistory.length) :: chatHistory.map toMsg) ∧
    (chatHistory.length = 25 → maxMessages = 20 →
      (prepare_chat_history chatHistory maxMessages).length = 21 ∧
      (prepare_chat_history chatHistory maxMessages).head? =
        some (.ai "[Earlier in conversation: 5 messages exchanged about workout planning]")) := by
  refine ⟨?_, ?_, ?_, ?_⟩
  · intro h
    simp [prepare_chat_history, h]
  · intro hpos h
    have hnot : ¬ chatHistory.length ≤ maxMessages := Nat.not_le.mpr h
    have hn0 : ¬ maxMessages = 0 := by omega
    have hlen : (lastN maxMessages chatHistory).length = maxMessages := by
      simp only [lastN, hn0, if_false, List.length_drop]
      omega
    refine ⟨?_, ?_, ?_⟩
    · simp [prepare_chat_history, hnot, hlen]
    · simp [prepare_chat_history, hnot]
    · simp [prepare_chat_history, hnot]
  · intro h0 hlen
    subst h0
    have hnot : ¬ chatHistory.length ≤ 0 := by omega
    simp [prepare_chat_history, hnot, lastN]
  · intro h25 h20
    subst h20
    have hnot : ¬ chatHistory.length ≤ 20 := by omega
    have hn0 : ¬ (20 : Nat) = 0 := by omega
    constructor
    · simp only [prepare_chat_history, hnot, if_false, List.length_cons,
        List.length_map, lastN, hn0, List.length_drop]
      omega
    · simp only [prepare_chat_history, hnot, if_false, List.head?_cons, h25]
      rfl

/-- Witness for C3 at a concrete 25-turn history. -/
theorem c3_prepare_history_witness :
    (prepare_chat_history (List.replicate 25 (("human", "hello progress") : Turn)) 20).length
        = 21 ∧
    (prepare_chat_history (List.replicate 25 (("human", "hello progress") : Turn)) 20).head? =
      some (.ai "[Earlier in conversation: 5 messages exchanged about workout planning]") :=
  (c3_prepare_history (List.replicate 25 (("human", "hello progress") : Turn)) 20).2.2.2
    (by decide) rfl

/-- Claim C4 (confirmed): the experience-level table is scanned in
table order and the first keyword found in the scan buffer determines
`experience_level` (the scan then stops), regardless of where the
keywords occur in the text: if entry `i` of the table matches the
buffer and no earlier entry does, the extracted level is entry `i`'s,
even when keywords of later entries occur earlier in the text. -/
theorem c4_experience_table_order (storedProfile : Option Profile)
    (chatHistory : List Turn) (nowIso : String) (i : Nat)
    (hi : i < experienceKeywords.length)
    (hhit : strContains (scanBuffer chatHistory)
      (experienceKeywords.getD i ("", "")).1 = true)
    (hmin : ∀ k, k < i → strContains (scanBuffer chatHistory)
      (experienceKeywords.getD k ("", "")).1 = false) :
    (extract_user_context storedProfile chatHistory nowIso).experience_level =
      (experienceKeywords.getD i ("", "")).2 := by
  have hfind :
      experienceKeywords.find? (fun kv => strContains (scanBuffer chatHistory) kv.1) =
        some (experienceKeywords.getD i ("", "")) :=
    list_find_first _ ("", "") experienceKeywords i hi hhit hmin
  simp [extract_user_context, extractExperience, hfind]

/-- Witness for C4: the buffer mentions "advanced" before "beginner"
in text order, yet the extracted level is "beginner" because
"beginner" comes first in the fixed table. -/
theorem c4_experience_table_order_witness :
    strContains (scanBuffer
        [("human", "I trained at an advanced gym but I am a beginner")]) "advanced"
      = true ∧
    (extract_user_context none
        [("human", "I trained at an advanced gym but I am a beginner")]
        "2026-01-01T00:00:00").experience_level = "beginner" :=
  ⟨by decide,
   c4_experience_table_order none
     [("human", "I trained at an advanced gym but I am a beginner")]
     "2026-01-01T00:00:00" 0 (by decide) (by decide)
     (fun k hk => absurd hk (Nat.not_lt_zero k))⟩

/-- Claim C2, amended (corrected): once the pruned timestamp sequence
already holds `max_requests` entries — the state produced by
`max_requests` admitted calls within the window — the next call
returns `allowed = false`, its message reports the wait time
`⌊window - (now - oldest_retained_timestamp)⌋`, that wait time is
nonnegative but may be 0 (it is not strictly positive in general),
and the call leaves the sequence pruned without appending `now`. -/
theorem c2_rate_limit_reject (rt : List ℚ) (now : ℚ)
    (h : 20 ≤ (rt.filter fun t => decide (now - t < 60)).length) :
    (check_rate_limit rt now 20 60).allowed = false ∧
    (check_rate_limit rt now 20 60).message =
      rateLimitMessage
        (rejectWait (rt.filter fun t => decide (now - t < 60)) now 60) ∧
    0 ≤ rejectWait (rt.filter fun t => decide (now - t < 60)) now 60 ∧
    (check_rate_limit rt now 20 60).times =
      rt.filter fun t => decide (now - t < 60) := by
  refine ⟨?_, ?_, ?_, ?_⟩
  · simp [check_rate_limit, h]
  · simp [check_rate_limit, h]
  · have hne : (rt.filter fun t => decide (now - t < 60)) ≠ [] := by
      intro hnil
      rw [hnil] at h
      simp at h
    rcases hfe : rt.filter fun t => decide (now - t < 60) with _ | ⟨a, l⟩
    · exact absurd hfe hne
    · have hmem : a ∈ rt.filter fun t => decide (now - t < 60) := by
        rw [hfe]; exact List.mem_cons_self a l
      have hlt : now - a < 60 := by
        have := (List.mem_filter.mp hmem).2
        simpa using this
      have hpos : (0 : ℚ) ≤ 60 - (now - a) := by linarith
      simp only [rejectWait, List.headI]
      exact Int.le_floor.mpr (by exact_mod_cast hpos)
  · simp [check_rate_limit, h]

/-- Witness for the amended C2: twenty timestamps at instant 0,
checked at instant 30, are all retained, so the next call rejects
without appending. -/
theorem c2_rate_limit_reject_witness :
    (check_rate_limit (List.replicate 20 (0 : ℚ)) 30 20 60).allowed = false ∧
    (check_rate_limit (List.replicate 20 (0 : ℚ)) 30 20 60).message =
      rateLimitMessage
        (rejectWait ((List.replicate 20 (0 : ℚ)).filter
          fun t => decide ((30 : ℚ) - t < 60)) 30 60) ∧
    0 ≤ rejectWait ((List.replicate 20 (0 : ℚ)).filter
          fun t => decide ((30 : ℚ) - t < 60)) 30 60 ∧
    (check_rate_limit (List.replicate 20 (0 : ℚ)) 30 20 60).times =
      (List.replicate 20 (0 : ℚ)).filter fun t => decide ((30 : ℚ) - t < 60) :=
  c2_rate_limit_reject (List.replicate 20 (0 : ℚ)) 30 (by
    have : ((List.replicate 20 (0 : ℚ)).filter fun t => decide ((30 : ℚ) - t < 60)) =
        List.replicate 20 (0 : ℚ) := by
      apply List.filter_eq_self.mpr
      intro a ha
      rw [List.eq_of_mem_replicate ha]
      norm_num
    rw [this]
    simp)

/-- Claim C2 counterexample: after twenty admitted calls at instant 0
(the resulting sequence is exactly twenty zeros), the next call at
instant 59.5 is rejected, but the reported wait time is
`⌊60 - 59.5⌋ = 0`, not strictly greater than 0. -/
theorem c2_wait_time_zero_counterexample :
    rateState (List.replicate 20 (0 : ℚ)) [] = List.replicate 20 (0 : ℚ) ∧
    (check_rate_limit (List.replicate 20 (0 : ℚ)) ((119 : ℚ) / 2) 20 60).allowed
      = false ∧
    (check_rate_limit (List.replicate 20 (0 : ℚ)) ((119 : ℚ) / 2) 20 60).message
      = rateLimitMessage 0 ∧
    rejectWait (List.replicate 20 (0 : ℚ)) ((119 : ℚ) / 2) 60 = 0 := by
  have hfilter : ∀ m : Nat,
      ((List.replicate m (0 : ℚ)).filter fun t => decide ((0 : ℚ) - t < 60)) =
        List.replicate m (0 : ℚ) := by
    intro m
    apply List.filter_eq_self.mpr
    intro a ha
    rw [List.eq_of_mem_replicate ha]
    norm_num
  have hstep : ∀ m : Nat, m < 20 →
      (check_rate_limit (List.replicate m (0 : ℚ)) 0 20 60).times =
        List.replicate (m + 1) (0 : ℚ) := by
    intro m hm
    have hcond : ¬ 20 ≤ (List.replicate m (0 : ℚ)).length := by
      rw [List.length_replicate]
      omega
    simp only [check_rate_limit, hfilter m, hcond, if_false]
    exact (List.replicate_succ' m (0 : ℚ)).symm
  have hstate : ∀ k m : Nat, m + k ≤ 20 →
      rateState (List.replicate k (0 : ℚ)) (List.replicate m (0 : ℚ)) =
        List.replicate (m + k) (0 : ℚ) := by
    intro k
    induction k with
    | zero => intro m _; simp [rateState]
    | succ j ih =>
      intro m hmj
      rw [List.replicate_succ]
      simp only [rateState]
      rw [hstep m (by omega), ih (m + 1) (by omega)]
      congr 1
      omega
  have hfilter2 :
      ((List.replicate 20 (0 : ℚ)).filter fun t => decide ((119 : ℚ) / 2 - t < 60)) =
        List.replicate 20 (0 : ℚ) := by
    apply List.filter_eq_self.mpr
    intro a ha
    rw [List.eq_of_mem_replicate ha]
    norm_num
  have hwait : rejectWait (List.replicate 20 (0 : ℚ)) ((119 : ℚ) / 2) 60 = 0 := by
    simp only [rejectWait, List.replicate_succ, List.headI]
    rw [Int.floor_eq_zero_iff]
    constructor
    · norm_num
    · norm_num
  have hlen : 20 ≤ ((List.replicate 20 (0 : ℚ)).filter
      fun t => decide ((119 : ℚ) / 2 - t < 60)).length := by
    rw [hfilter2]
    simp
  have hcond : 20 ≤ (List.replicate 20 (0 : ℚ)).length := by
    rw [List.length_replicate]
  refine ⟨?_, ?_, ?_, hwait⟩
  · have := hstate 20 0 (by omega)
    simpa using this
  · simp only [check_rate_limit, hfilter2, hcond, if_true]
  · simp only [check_rate_limit, hfilter2, hcond, if_true]
    rw [hwait]

/-- Claim C1 counterexample: the reasoning step returns the
8-character output "okay yes"; `chat` returns that short original
text itself and persists it verbatim to memory — no clarification
fallback is substituted for short outputs. -/
theorem c1_short_output_counterexample :
    (chat "Tell me something please" "user_001" 0 "2026-01-01T00:00:00"
        (fun _ _ => .success (some "okay yes")) emptyStores).text = "okay yes" ∧
    strLen "okay yes" < 10 ∧
    (chat "Tell me something please" "user_001" 0 "2026-01-01T00:00:00"
        (fun _ _ => .success (some "okay yes")) emptyStores).stores.memory "user_001"
      = [("human", "Tell me something please"), ("assistant", "okay yes")] := by
  decide

/-- Claim C1, amended (corrected): on success `chat` substitutes the
fixed fallback only when the reasoning result lacks an `output`
field; whenever an output text is present — even empty or shorter
than 10 characters — that text itself is the assistant turn appended
to history and persisted, and the text returned to the caller. -/
theorem c1_output_passthrough (userInput sid : String) (now : ℚ) (nowIso : String)
    (invoke : String → List Msg → InvokeResult) (st : Stores) (out : Option String)
    (hrl : (check_rate_limit (st.rateTimes sid) now 20 60).allowed = true)
    (hv : is_valid_input userInput = true)
    (hg : is_greeting userInput = false)
    (hinv : ∀ x hs, invoke x hs = .success out) :
    (chat userInput sid now nowIso invoke st).text = out.getD fallbackOutput ∧
    (chat userInput sid now nowIso invoke st).stores.memory sid =
      lastN 50 (st.memory sid ++
        [("human", userInput), ("assistant", out.getD fallbackOutput)]) := by
  constructor
  · simp [chat, hrl, hv, hg, hinv]
  · simp [chat, hrl, hv, hg, hinv]

/-- Witness for the amended C1: a present but 5-character output is
returned and persisted as is. -/
theorem c1_output_passthrough_witness :
    (chat "What should I train" "user_001" 0 "2026-01-01T00:00:00"
        (fun _ _ => .success (some "ok go")) emptyStores).text =
      (some "ok go").getD fallbackOutput ∧
    (chat "What should I train" "user_001" 0 "2026-01-01T00:00:00"
        (fun _ _ => .success (some "ok go")) emptyStores).stores.memory "user_001" =
      lastN 50 (emptyStores.memory "user_001" ++
        [("human", "What should I train"),
         ("assistant", (some "ok go").getD fallbackOutput)]) :=
  c1_output_passthrough "What should I train" "user_001" 0 "2026-01-01T00:00:00"
    (fun _ _ => .success (some "ok go")) emptyStores (some "ok go")
    (by decide) (by decide) (by decide) (fun _ _ => rfl)

/-- Claim C5 (confirmed): when the reasoning step times out, `chat`
returns the fixed "taking too long" message, the memory store is left
unchanged by the invocation, and the usage-stats increment performed
earlier in the same invocation is retained, not rolled back. -/
theorem c5_timeout_effects (userInput sid : String) (now : ℚ) (nowIso : String)
    (invoke : String → List Msg → InvokeResult) (st : Stores)
    (hrl : (check_rate_limit (st.rateTimes sid) now 20 60).allowed = true)
    (hv : is_valid_input userInput = true)
    (hg : is_greeting userInput = false)
    (hinv : ∀ x hs, invoke x hs = .timedOut) :
    (chat userInput sid now nowIso invoke st).text = timeoutReply ∧
    (chat userInput sid now nowIso invoke st).stores.memory = st.memory ∧
    ((chat userInput sid now nowIso invoke st).stores.usage sid).map
        Usage.total_requests =
      some (((st.usage sid).map Usage.total_requests).getD 0 + 1) := by
  refine ⟨?_, ?_, ?_⟩
  · simp [chat, hrl, hv, hg, hinv]
  · simp [chat, hrl, hv, hg, hinv]
  · simp only [chat, hrl, hv, hg, hinv]
    simp [update_usage_stats]
    cases h : st.usage sid <;> simp [h]

/-- Witness for C5 with a reasoning step that always times out. -/
theorem c5_timeout_effects_witness :
    (chat "I want a chest workout" "user_001" 0 "2026-01-01T00:00:00"
        (fun _ _ => .timedOut) emptyStores).text = timeoutReply ∧
    (chat "I want a chest workout" "user_001" 0 "2026-01-01T00:00:00"
        (fun _ _ => .timedOut) emptyStores).stores.memory = emptyStores.memory ∧
    ((chat "I want a chest workout" "user_001" 0 "2026-01-01T00:00:00"
        (fun _ _ => .timedOut) emptyStores).stores.usage "user_001").map
        Usage.total_requests =
      some (((emptyStores.usage "user_001").map Usage.total_requests).getD 0 + 1) :=
  c5_timeout_effects "I want a chest workout" "user_001" 0 "2026-01-01T00:00:00"
    (fun _ _ => .timedOut) emptyStores (by decide) (by decide) (by decide)
    (fun _ _ => rfl)

/-- Claim C6 (confirmed): an admitted, valid input classified as a
greeting makes `chat` return the fixed warm greeting while the
usage-stats store, the profile store and the memory store are all
left unchanged; only the session's rate-limit sequence is mutated
(pruned with the request's timestamp appended). -/
theorem c6_greeting_frame (userInput sid : String) (now : ℚ) (nowIso : String)
    (invoke : String → List Msg → InvokeResult) (st : Stores)
    (hrl : (check_rate_limit (st.rateTimes sid) now 20 60).allowed = true)
    (hv : is_valid_input userInput = true)
    (hg : is_greeting userInput = true) :
    (chat userInput sid now nowIso invoke st).text = greetingReply ∧
    (chat userInput sid now nowIso invoke st).stores.usage = st.usage ∧
    (chat userInput sid now nowIso invoke st).stores.profiles = st.profiles ∧
    (chat userInput sid now nowIso invoke st).stores.memory = st.memory ∧
    (chat userInput sid now nowIso invoke st).stores.rateTimes sid =
      ((st.rateTimes sid).filter fun t => decide (now - t < 60)) ++ [now] := by
  have htimes := (check_rate_limit_allowed (st.rateTimes sid) now 20 60 hrl).1
  refine ⟨?_, ?_, ?_, ?_, ?_⟩
  · simp [chat, hrl, hv, hg]
  · simp [chat, hrl, hv, hg]
  · simp [chat, hrl, hv, hg]
  · simp [chat, hrl, hv, hg]
  · simp [chat, hrl, hv, hg, htimes]

/-- Witness for C6 at the greeting "hello" in a fresh process state. -/
theorem c6_greeting_frame_witness :
    (chat "hello" "user_001" 0 "2026-01-01T00:00:00"
        (fun _ _ => .failed) emptyStores).text = greetingReply ∧
    (chat "hello" "user_001" 0 "2026-01-01T00:00:00"
        (fun _ _ => .failed) emptyStores).stores.usage = emptyStores.usage ∧
    (chat "hello" "user_001" 0 "2026-01-01T00:00:00"
        (fun _ _ => .failed) emptyStores).stores.profiles = emptyStores.profiles ∧
    (chat "hello" "user_001" 0 "2026-01-01T00:00:00"
        (fun _ _ => .failed) emptyStores).stores.memory = emptyStores.memory ∧
    (chat "hello" "user_001" 0 "2026-01-01T00:00:00"
        (fun _ _ => .failed) emptyStores).stores.rateTimes "user_001" =
      ((emptyStores.rateTimes "user_001").filter
        fun t => decide ((0 : ℚ) - t < 60)) ++ [0] :=
  c6_greeting_frame "hello" "user_001" 0 "2026-01-01T00:00:00"
    (fun _ _ => .failed) emptyStores (by decide) (by decide) (by decide)

/-- Claim C7 counterexample: the record written on a session's first
extraction call carries a sixth field, `preferences`, which is not
among the five fields the claim lists as exhaustive. -/
theorem c7_preferences_field_counterexample :
    "preferences" ∈
      ((extract_user_context none [] "2026-01-01T00:00:00").toFields.map Prod.fst) ∧
    "preferences" ∉
      (["goals", "experience_level", "equipment", "limitations", "last_updated"] :
        List String) := by
  decide

/-- Claim C7, amended (corrected): every per-session record written
to the profile store — on the first extraction call and after every
subsequent extraction — has exactly the fields `goals` (list of
strings), `experience_level` (string), `equipment` (list of strings),
`limitations` (list of strings), `preferences` (list of strings) and
`last_updated` (string timestamp), in that order. -/
theorem c7_profile_record_fields (storedProfile : Option Profile)
    (chatHistory : List Turn) (nowIso : String) :
    ((extract_user_context storedProfile chatHistory nowIso).toFields.map Prod.fst) =
      ["goals", "experience_level", "equipment", "limitations", "preferences",
       "last_updated"] ∧
    ∃ g lv e lim pr lu,
      (extract_user_context storedProfile chatHistory nowIso).toFields =
        [("goals", JValue.arr g), ("experience_level", JValue.str lv),
         ("equipment", JValue.arr e), ("limitations", JValue.arr lim),
         ("preferences", JValue.arr pr), ("last_updated", JValue.str lu)] :=
  ⟨rfl, _, _, _, _, _, _, rfl⟩

/-- Claim C8 (confirmed): after a successful `chat` invocation, the
stored history for the session is the previous stored history with
`(human, original input)` and `(assistant, final text)` appended and
truncated to the most recent 50 entries, so its length never exceeds
50 after the write. -/
theorem c8_memory_append_truncate (userInput sid : String) (now : ℚ)
    (nowIso : String) (invoke : String → List Msg → InvokeResult) (st : Stores)
    (out : Option String)
    (hrl : (check_rate_limit (st.rateTimes sid) now 20 60).allowed = true)
    (hv : is_valid_input userInput = true)
    (hg : is_greeting userInput = false)
    (hinv : ∀ x hs, invoke x hs = .success out) :
    (chat userInput sid now nowIso invoke st).stores.memory sid =
      lastN 50 (st.memory sid ++
        [("human", userInput),
         ("assistant", (chat userInput sid now nowIso invoke st).text)]) ∧
    ((chat userInput sid now nowIso invoke st).stores.memory sid).length ≤ 50 := by
  constructor
  · simp [chat, hrl, hv, hg, hinv]
  · simp [chat, hrl, hv, hg, hinv, lastN]
    omega

/-- Witness for C8 on a fresh session with a successful reasoning
step. -/
theorem c8_memory_append_truncate_witness :
    (chat "I want a chest workout" "user_001" 0 "2026-01-01T00:00:00"
        (fun _ _ => .success (some "Try pushups and bench press."))
        emptyStores).stores.memory "user_001" =
      lastN 50 (emptyStores.memory "user_001" ++
        [("human", "I want a chest workout"),
         ("assistant",
          (chat "I want a chest workout" "user_001" 0 "2026-01-01T00:00:00"
            (fun _ _ => .success (some "Try pushups and bench press."))
            emptyStores).text)]) ∧
    ((chat "I want a chest workout" "user_001" 0 "2026-01-01T00:00:00"
        (fun _ _ => .success (some "Try pushups and bench press."))
        emptyStores).stores.memory "user_001").length ≤ 50 :=
  c8_memory_append_truncate "I want a chest workout" "user_001" 0
    "2026-01-01T00:00:00"
    (fun _ _ => .success (some "Try pushups and bench press.")) emptyStores
    (some "Try pushups and bench press.") (by decide) (by decide) (by decide)
    (fun _ _ => rfl)

/-- Claim C9 (confirmed): an admitted input that fails validation
makes `chat` return the fixed clarification prompt with the
usage-stats store, the profile store and the memory store unchanged,
while the rate-limit check has already appended the request's
timestamp — invalid inputs still consume rate-limit quota. -/
theorem c9_invalid_input_frame (userInput sid : String) (now : ℚ) (nowIso : String)
    (invoke : String → List Msg → InvokeResult) (st : Stores)
    (hrl : (check_rate_limit (st.rateTimes sid) now 20 60).allowed = true)
    (hv : is_valid_input userInput = false) :
    (chat userInput sid now nowIso invoke st).text = invalidReply ∧
    (chat userInput sid now nowIso invoke st).stores.usage = st.usage ∧
    (chat userInput sid now nowIso invoke st).stores.profiles = st.profiles ∧
    (chat userInput sid now nowIso invoke st).stores.memory = st.memory ∧
    (chat userInput sid now nowIso invoke st).stores.rateTimes sid =
      ((st.rateTimes sid).filter fun t => decide (now - t < 60)) ++ [now] := by
  have htimes := (check_rate_limit_allowed (st.rateTimes sid) now 20 60 hrl).1
  refine ⟨?_, ?_, ?_, ?_, ?_⟩
  · simp [chat, hrl, hv]
  · simp [chat, hrl, hv]
  · simp [chat, hrl, hv]
  · simp [chat, hrl, hv]
  · simp [chat, hrl, hv, htimes]

/-- Witness for C9 at the two-character non-alphabetic input "12". -/
theorem c9_invalid_input_frame_witness :
    (chat "12" "user_001" 0 "2026-01-01T00:00:00"
        (fun _ _ => .failed) emptyStores).text = invalidReply ∧
    (chat "12" "user_001" 0 "2026-01-01T00:00:00"
        (fun _ _ => .failed) emptyStores).stores.usage = emptyStores.usage ∧
    (chat "12" "user_001" 0 "2026-01-01T00:00:00"
        (fun _ _ => .failed) emptyStores).stores.profiles = emptyStores.profiles ∧
    (chat "12" "user_001" 0 "2026-01-01T00:00:00"
        (fun _ _ => .failed) emptyStores).stores.memory = emptyStores.memory ∧
    (chat "12" "user_001" 0 "2026-01-01T00:00:00"
        (fun _ _ => .failed) emptyStores).stores.rateTimes "user_001" =
      ((emptyStores.rateTimes "user_001").filter
        fun t => decide ((0 : ℚ) - t < 60)) ++ [0] :=
  c9_invalid_input_frame "12" "user_001" 0 "2026-01-01T00:00:00"
    (fun _ _ => .failed) emptyStores (by decide) (by decide)

/-- Claim C10 (confirmed): profile extraction and the bounded context
window are computed from the session history as stored before the
invocation: the stored profile after `chat` is the extraction over
the pre-state memory for any current input, the reasoning step is
invoked with exactly the window built from the pre-state memory (two
oracles agreeing on that window yield identical results), and the
current message reaches history only after a successful reasoning
step (on timeout or failure the memory store is unchanged). -/
theorem c10_prestate_profile_and_window (u1 u2 sid : String) (now : ℚ)
    (nowIso : String) (invoke invoke2 : String → List Msg → InvokeResult)
    (st : Stores)
    (hrl : (check_rate_limit (st.rateTimes sid) now 20 60).allowed = true)
    (hv1 : is_valid_input u1 = true) (hg1 : is_greeting u1 = false)
    (hv2 : is_valid_input u2 = true) (hg2 : is_greeting u2 = false)
    (hagree : ∀ x, invoke x (prepare_chat_history (st.memory sid) 20) =
      invoke2 x (prepare_chat_history (st.memory sid) 20)) :
    (chat u1 sid now nowIso invoke st).stores.profiles sid =
      some (extract_user_context (st.profiles sid) (st.memory sid) nowIso) ∧
    (chat u2 sid now nowIso invoke st).stores.profiles sid =
      some (extract_user_context (st.profiles sid) (st.memory sid) nowIso) ∧
    chat u1 sid now nowIso invoke st = chat u1 sid now nowIso invoke2 st ∧
    (chat u1 sid now nowIso (fun _ _ => .timedOut) st).stores.memory = st.memory ∧
    (chat u1 sid now nowIso (fun _ _ => .failed) st).stores.memory = st.memory := by
  refine ⟨?_, ?_, ?_, ?_, ?_⟩
  · simp [chat, hrl, hv1, hg1]
    split <;> simp
  · simp [chat, hrl, hv2, hg2]
    split <;> simp
  · simp [chat, hrl, hv1, hg1, hagree]
  · simp [chat, hrl, hv1, hg1]
  · simp [chat, hrl, hv1, hg1]

/-- Witness for C10 with two distinct valid inputs and two oracles
that agree on the pre-state context window. -/
theorem c10_prestate_profile_and_window_witness :
    (chat "I want a chest workout" "user_001" 0 "2026-01-01T00:00:00"
        (fun _ _ => .success (some "Bench press, 3 sets of 8."))
        emptyStores).stores.profiles "user_001" =
      some (extract_user_context (emptyStores.profiles "user_001")
        (emptyStores.memory "user_001") "2026-01-01T00:00:00") ∧
    (chat "What sets and reps for strength" "user_001" 0 "2026-01-01T00:00:00"
        (fun _ _ => .success (some "Bench press, 3 sets of 8."))
        emptyStores).stores.profiles "user_001" =
      some (extract_user_context (emptyStores.profiles "user_001")
        (emptyStores.memory "user_001") "2026-01-01T00:00:00") ∧
    chat "I want a chest workout" "user_001" 0 "2026-01-01T00:00:00"
        (fun _ _ => .success (some "Bench press, 3 sets of 8.")) emptyStores =
      chat "I want a chest workout" "user_001" 0 "2026-01-01T00:00:00"
        (fun _ _ => .success (some "Bench press, 3 sets of 8.")) emptyStores ∧
    (chat "I want a chest workout" "user_001" 0 "2026-01-01T00:00:00"
        (fun _ _ => .timedOut) emptyStores).stores.memory = emptyStores.memory ∧
    (chat "I want a chest workout" "user_001" 0 "2026-01-01T00:00:00"
        (fun _ _ => .failed) emptyStores).stores.memory = emptyStores.memory :=
  c10_prestate_profile_and_window "I want a chest workout"
    "What sets and reps for strength" "user_001" 0 "2026-01-01T00:00:00"
    (fun _ _ => .success (some "Bench press, 3 sets of 8."))
    (fun _ _ => .success (some "Bench press, 3 sets of 8.")) emptyStores
    (by decide) (by decide) (by decide) (by decide) (by decide)
    (fun _ => rfl)

end WorkoutAgent
